import Mathlib

/-!
# vpchrono: session manager and VPC lookup

A shallow embedding of `aws/session.go`, `aws/vpc.go` and `main.go`.

* Go pointers to strings and booleans (`*string`, `*bool`) are `Option` values,
  read through `aws.ToString` / `aws.ToBool`.
* A Go `map[string]string` is a list of key/value pairs with distinct keys;
  `m[k] = v` is `GoMap.set`.
* A Go `(T, error)` result is `Except GoError T`.
* The AWS SDK is the record `Sdk` of the three calls the program makes; the
  answer of a call may depend on how many calls were issued before it.
* Effects (SDK calls issued, standard output, standard error, allocated
  session managers) are recorded in an explicit `World` passed through every
  effectful function.
-/

set_option autoImplicit false

namespace Vpchrono

/-! ## Go values -/

/-- Go `error` values: one built without the `%w` verb (or produced by the SDK),
or one built by `fmt.Errorf` with `%w` around a cause. `msg` is the full text
returned by `Error()`. -/
inductive GoError where
  | leaf (msg : String)
  | wrap (msg : String) (cause : GoError)
  deriving DecidableEq, Repr

/-- The text of an error, Go's `err.Error()`. -/
def GoError.Error : GoError → String
  | .leaf msg => msg
  | .wrap msg _ => msg

/-- The wrapped cause of an error, Go's `errors.Unwrap`. -/
def GoError.Unwrap : GoError → Option GoError
  | .leaf _ => none
  | .wrap _ cause => some cause

/-- The call `fmt.Errorf(pre + "%w", err)`: the text is `pre` followed by the text of
`err`, and the result wraps `err`. -/
def errorfW (pre : String) (err : GoError) : GoError :=
  .wrap (pre ++ err.Error) err

/-- The call `fmt.Errorf(text)` with no `%w` verb. -/
def errorf (text : String) : GoError :=
  .leaf text

/-- The helper `aws.ToString`: the pointed-to string, or `""` for a nil pointer. -/
def ToString (p : Option String) : String :=
  match p with
  | some s => s
  | none => ""

/-- The helper `aws.ToBool`: the pointed-to boolean, or `false` for a nil pointer. -/
def ToBool (p : Option Bool) : Bool :=
  match p with
  | some b => b
  | none => false

/-- A Go `map[string]string`, kept as its entries. -/
abbrev GoMap := List (String × String)

/-- The assignment `m[k] = v`: overwrite the entry of `k` when there is one, add it
otherwise. -/
def GoMap.set : GoMap → String → String → GoMap
  | [], k, v => [(k, v)]
  | (k', v') :: rest, k, v =>
    if k' = k then (k, v) :: rest else (k', v') :: GoMap.set rest k v

/-- The lookup `v, ok := m[k]`. -/
def GoMap.get? : GoMap → String → Option String
  | [], _ => none
  | (k', v') :: rest, k => if k' = k then some v' else GoMap.get? rest k

/-- The keys of a map. -/
def GoMap.keys (m : GoMap) : List String :=
  m.map Prod.fst

/-! ## SDK types -/

/-- The SDK type `types.Tag`. -/
structure Tag where
  Key : Option String
  Value : Option String
  deriving DecidableEq, Repr

/-- The fields of the SDK type `types.Vpc` that the program reads. -/
structure SdkVpc where
  VpcId : Option String
  CidrBlock : Option String
  IsDefault : Option Bool
  Tags : List Tag
  deriving DecidableEq, Repr

/-- The SDK type `types.Filter`. -/
structure Filter where
  Name : Option String
  Values : List String
  deriving DecidableEq, Repr

/-- The fields of `ec2.DescribeVpcsInput` that the program sets. -/
structure DescribeVpcsInput where
  VpcIds : List String
  Filters : List Filter
  deriving DecidableEq, Repr

/-- The field of `ec2.DescribeVpcsOutput` that the program reads. -/
structure DescribeVpcsOutput where
  Vpcs : List SdkVpc
  deriving DecidableEq, Repr

/-- The fields of `sts.GetCallerIdentityOutput` that the program reads. -/
structure GetCallerIdentityOutput where
  Arn : Option String
  Account : Option String
  deriving DecidableEq, Repr

/-- The SDK type `aws.Config`; the program stores it and hands it back to the SDK
without reading it. The zero value is `aws.Config{}`. -/
structure Config where
  Region : String
  deriving DecidableEq, Repr

/-- The load options the program builds: `config.WithRegion` and
`config.WithSharedConfigProfile`. -/
inductive LoadOption where
  | WithRegion (region : String)
  | WithSharedConfigProfile (profile : String)
  deriving DecidableEq, Repr

/-- The three SDK calls made by the program. The first argument of each is the
number of SDK calls issued earlier in the run, so that answers may change from
one call to the next. -/
structure Sdk where
  LoadDefaultConfig : Nat → List LoadOption → Except GoError Config
  GetCallerIdentity : Nat → Config → Except GoError GetCallerIdentityOutput
  DescribeVpcs : Nat → Config → DescribeVpcsInput → Except GoError DescribeVpcsOutput

/-! ## Program types -/

/-- The struct `VpcInfo` of `aws/vpc.go`. -/
structure VpcInfo where
  ID : String
  CidrBlock : String
  IsDefault : Bool
  Name : String
  Tags : GoMap
  deriving DecidableEq, Repr

/-- The struct `SessionManager` of `aws/session.go`. -/
structure SessionManager where
  region : String
  profile : String
  config : Config
  deriving DecidableEq, Repr

/-- An SDK call as it appears in the log of a run. -/
inductive ApiCall where
  | LoadDefaultConfig (opts : List LoadOption)
  | GetCallerIdentity (cfg : Config)
  | DescribeVpcs (cfg : Config) (input : DescribeVpcsInput)
  deriving DecidableEq, Repr

/-- Whether a logged call is a describe-VPCs call. -/
def ApiCall.isDescribeVpcs : ApiCall → Bool
  | .DescribeVpcs _ _ => true
  | _ => false

/-- The observable state of a run: SDK calls issued (oldest first), text written to
standard output and to standard error (oldest first), and the session managers
allocated so far (a pointer is an index into `heap`). -/
structure World where
  calls : List ApiCall
  stdout : List String
  stderr : List String
  heap : List SessionManager
  deriving DecidableEq, Repr

/-- The state at process start. -/
def World.init : World :=
  { calls := [], stdout := [], stderr := [], heap := [] }

/-- Record an SDK call. -/
def World.issue (w : World) (c : ApiCall) : World :=
  { w with calls := w.calls ++ [c] }

/-- Write to standard output. -/
def World.print (w : World) (s : String) : World :=
  { w with stdout := w.stdout ++ [s] }

/-- Write to standard error. -/
def World.eprint (w : World) (s : String) : World :=
  { w with stderr := w.stderr ++ [s] }

/-! ## aws/session.go -/

/-- The method `loadConfig` (session.go lines 39-58): build the load options from the
region and, when it is not empty, the profile; call `config.LoadDefaultConfig`;
wrap its error. -/
def loadConfig (sdk : Sdk) (sm : SessionManager) (w : World) : Except GoError Config × World :=
  let opts : List LoadOption := []
  let opts := opts ++ [LoadOption.WithRegion sm.region]
  let opts := if sm.profile ≠ "" then opts ++ [LoadOption.WithSharedConfigProfile sm.profile] else opts
  match sdk.LoadDefaultConfig w.calls.length opts with
  | .error err =>
    (.error (errorfW "failed to load AWS configuration: " err), w.issue (.LoadDefaultConfig opts))
  | .ok cfg => (.ok cfg, w.issue (.LoadDefaultConfig opts))

/-- The function `NewSessionManager` (session.go lines 22-36): allocate a session
manager holding the region and profile, load the configuration, and on success
store it in the new session manager and return the pointer to it. -/
def NewSessionManager (sdk : Sdk) (region profile : String) (w : World) :
    Except GoError Nat × World :=
  let p := w.heap.length
  let sm : SessionManager := { region := region, profile := profile, config := { Region := "" } }
  let w := { w with heap := w.heap ++ [sm] }
  match loadConfig sdk sm w with
  | (.error err, w1) => (.error err, w1)
  | (.ok cfg, w1) => (.ok p, { w1 with heap := w1.heap.set p { sm with config := cfg } })

/-- The client returned by `ec2.NewFromConfig`: it keeps the configuration. -/
structure EC2Client where
  config : Config
  deriving DecidableEq, Repr

/-- The client returned by `sts.NewFromConfig`: it keeps the configuration. -/
structure STSClient where
  config : Config
  deriving DecidableEq, Repr

/-- The method `GetEC2Client` (session.go lines 61-63). -/
def GetEC2Client (sm : SessionManager) : EC2Client :=
  { config := sm.config }

/-- The SDK method `client.DescribeVpcs(ctx, input)`: ask the SDK and log the call. -/
def EC2Client.DescribeVpcs (sdk : Sdk) (client : EC2Client) (input : DescribeVpcsInput)
    (w : World) : Except GoError DescribeVpcsOutput × World :=
  (sdk.DescribeVpcs w.calls.length client.config input,
    w.issue (.DescribeVpcs client.config input))

/-- The SDK method `stsClient.GetCallerIdentity(ctx, input)`: ask the SDK and log the
call. -/
def STSClient.GetCallerIdentity (sdk : Sdk) (client : STSClient) (w : World) :
    Except GoError GetCallerIdentityOutput × World :=
  (sdk.GetCallerIdentity w.calls.length client.config, w.issue (.GetCallerIdentity client.config))

/-- The method `ValidateCredentials` (session.go lines 71-78). -/
def ValidateCredentials (sdk : Sdk) (sm : SessionManager) (w : World) :
    Except GoError Unit × World :=
  let stsClient : STSClient := { config := sm.config }
  match stsClient.GetCallerIdentity sdk w with
  | (.error err, w1) => (.error (errorfW "failed to validate AWS credentials: " err), w1)
  | (.ok _, w1) => (.ok (), w1)

/-- The method `GetCallerIdentity` (session.go lines 81-88). -/
def GetCallerIdentity (sdk : Sdk) (sm : SessionManager) (w : World) :
    Except GoError GetCallerIdentityOutput × World :=
  let stsClient : STSClient := { config := sm.config }
  match stsClient.GetCallerIdentity sdk w with
  | (.error err, w1) => (.error (errorfW "failed to get caller identity: " err), w1)
  | (.ok identity, w1) => (.ok identity, w1)

/-- The method `GetRegion` (session.go lines 91-93). -/
def GetRegion (sm : SessionManager) : String :=
  sm.region

/-- The method `UseRegion` (session.go lines 96-98). -/
def UseRegion (sdk : Sdk) (sm : SessionManager) (region : String) (w : World) :
    Except GoError Nat × World :=
  NewSessionManager sdk region sm.profile w

/-! ## aws/vpc.go -/

/-- The method `GetAllVpcs` (vpc.go lines 31-64). -/
def GetAllVpcs (sdk : Sdk) (sm : SessionManager) (w : World) :
    Except GoError (List VpcInfo) × World :=
  let client := GetEC2Client sm
  match client.DescribeVpcs sdk { VpcIds := [], Filters := [] } w with
  | (.error err, w1) => (.error (errorfW "failed to describe VPCs: " err), w1)
  | (.ok result, w1) =>
    let vpcs := result.Vpcs.foldl
      (fun (vpcs : List VpcInfo) (vpc : SdkVpc) =>
        let vpcInfo : VpcInfo :=
          { ID := ToString vpc.VpcId
            CidrBlock := ToString vpc.CidrBlock
            IsDefault := ToBool vpc.IsDefault
            Name := ""
            Tags := [] }
        let vpcInfo := vpc.Tags.foldl
          (fun (vpcInfo : VpcInfo) (tag : Tag) =>
            let key := ToString tag.Key
            let value := ToString tag.Value
            let vpcInfo := { vpcInfo with Tags := GoMap.set vpcInfo.Tags key value }
            if key = "Name" then { vpcInfo with Name := value } else vpcInfo)
          vpcInfo
        vpcs ++ [vpcInfo])
      []
    (.ok vpcs, w1)

/-- The method `GetVpcById` (vpc.go lines 67-102). -/
def GetVpcById (sdk : Sdk) (sm : SessionManager) (vpcId : String) (w : World) :
    Except GoError VpcInfo × World :=
  let client := GetEC2Client sm
  match client.DescribeVpcs sdk { VpcIds := [vpcId], Filters := [] } w with
  | (.error err, w1) => (.error (errorfW ("failed to describe VPC " ++ vpcId ++ ": ") err), w1)
  | (.ok result, w1) =>
    match result.Vpcs with
    | [] => (.error (errorf ("VPC " ++ vpcId ++ " not found")), w1)
    | vpc :: _ =>
      let vpcInfo : VpcInfo :=
        { ID := ToString vpc.VpcId
          CidrBlock := ToString vpc.CidrBlock
          IsDefault := ToBool vpc.IsDefault
          Name := ""
          Tags := [] }
      let vpcInfo := vpc.Tags.foldl
        (fun (vpcInfo : VpcInfo) (tag : Tag) =>
          let key := ToString tag.Key
          let value := ToString tag.Value
          let vpcInfo := { vpcInfo with Tags := GoMap.set vpcInfo.Tags key value }
          if key = "Name" then { vpcInfo with Name := value } else vpcInfo)
        vpcInfo
      (.ok vpcInfo, w1)

/-- The method `GetDefaultVpc` (vpc.go lines 105-146). -/
def GetDefaultVpc (sdk : Sdk) (sm : SessionManager) (w : World) :
    Except GoError VpcInfo × World :=
  let client := GetEC2Client sm
  let isDefaultFilter : Filter := { Name := some "isDefault", Values := ["true"] }
  match client.DescribeVpcs sdk { VpcIds := [], Filters := [isDefaultFilter] } w with
  | (.error err, w1) => (.error (errorfW "failed to describe VPCs: " err), w1)
  | (.ok result, w1) =>
    match result.Vpcs with
    | [] => (.error (errorf ("no default VPC found in region " ++ sm.region)), w1)
    | vpc :: _ =>
      let vpcInfo : VpcInfo :=
        { ID := ToString vpc.VpcId
          CidrBlock := ToString vpc.CidrBlock
          IsDefault := ToBool vpc.IsDefault
          Name := ""
          Tags := [] }
      let vpcInfo := vpc.Tags.foldl
        (fun (vpcInfo : VpcInfo) (tag : Tag) =>
          let key := ToString tag.Key
          let value := ToString tag.Value
          let vpcInfo := { vpcInfo with Tags := GoMap.set vpcInfo.Tags key value }
          if key = "Name" then { vpcInfo with Name := value } else vpcInfo)
        vpcInfo
      (.ok vpcInfo, w1)

/-! ## main.go -/

/-- The call `log.Fatalf`: write the message and the newline the logger adds to
standard error (the timestamp that the logger puts before it is left out) and exit
with status 1. -/
def Fatalf (msg : String) (w : World) : Nat × World :=
  (1, w.eprint (msg ++ "\n"))

/-- A nil-pointer dereference: the Go runtime reports the panic on standard error and
the process exits with status 2. -/
def nilPanic (w : World) : Nat × World :=
  (2, w.eprint "panic: runtime error: invalid memory address or nil pointer dereference")

/-- The verb `%t`. -/
def fmtBool (b : Bool) : String :=
  if b then "true" else "false"

/-- The region chosen by `main` (main.go lines 13-16). -/
def regionOfArgs (args : List String) : String :=
  match args with
  | _ :: a :: _ => a
  | _ => "us-east-1"

/-- The listing loop of `main` (main.go lines 44-50). -/
def printVpcs (vpcs : List VpcInfo) (w : World) : World :=
  vpcs.enum.foldl
    (fun (w : World) (iv : Nat × VpcInfo) =>
      let i := iv.1
      let vpc := iv.2
      let w := w.print (toString (i + 1) ++ ". VPC ID: " ++ vpc.ID ++ "\n")
      let w := w.print ("   Name: " ++ vpc.Name ++ "\n")
      let w := w.print ("   CIDR Block: " ++ vpc.CidrBlock ++ "\n")
      let w := w.print ("   Is Default: " ++ fmtBool vpc.IsDefault ++ "\n")
      w.print "\n")
    w

/-- The function `main` (main.go lines 11-62), from the command line `args` (the
program name first) and the state at process start, to the exit status and the
final state. -/
def main (sdk : Sdk) (args : List String) (w : World) : Nat × World :=
  let region := regionOfArgs args
  match NewSessionManager sdk region "" w with
  | (.error err, w) => Fatalf ("Failed to create session manager: " ++ err.Error) w
  | (.ok p, w) =>
  match w.heap[p]? with
  | none => nilPanic w
  | some sm =>
  match ValidateCredentials sdk sm w with
  | (.error err, w) => Fatalf ("Invalid AWS credentials: " ++ err.Error) w
  | (.ok _, w) =>
  match GetCallerIdentity sdk sm w with
  | (.error err, w) => Fatalf ("Failed to get caller identity: " ++ err.Error) w
  | (.ok identity, w) =>
  match identity.Arn with
  | none => nilPanic w
  | some arn =>
  let w := w.print ("Authenticated as: " ++ arn ++ "\n")
  match identity.Account with
  | none => nilPanic w
  | some account =>
  let w := w.print ("Account ID: " ++ account ++ "\n")
  match GetAllVpcs sdk sm w with
  | (.error err, w) => Fatalf ("Failed to get VPCs: " ++ err.Error) w
  | (.ok vpcs, w) =>
  let w := w.print ("\nFound " ++ toString vpcs.length ++ " VPCs in region " ++ GetRegion sm ++ ":\n")
  let w := printVpcs vpcs w
  match GetDefaultVpc sdk sm w with
  | (.error err, w) => (0, w.print ("No default VPC found: " ++ err.Error ++ "\n"))
  | (.ok defaultVpc, w) =>
    let w := w.print "Default VPC Information:\n"
    let w := w.print ("   VPC ID: " ++ defaultVpc.ID ++ "\n")
    let w := w.print ("   Name: " ++ defaultVpc.Name ++ "\n")
    let w := w.print ("   CIDR Block: " ++ defaultVpc.CidrBlock ++ "\n")
    (0, w)

/-! ## Definitions used to state the properties -/

/-- One round of the tag loop (vpc.go lines 49-58): store the tag in the mapping and,
when its key is `"Name"`, set the name. -/
def tagStep (vpcInfo : VpcInfo) (tag : Tag) : VpcInfo :=
  let key := ToString tag.Key
  let value := ToString tag.Value
  let vpcInfo := { vpcInfo with Tags := GoMap.set vpcInfo.Tags key value }
  if key = "Name" then { vpcInfo with Name := value } else vpcInfo

/-- The record built for one VPC entry (vpc.go lines 41-58): the struct literal
followed by the tag loop. -/
def vpcRecord (vpc : SdkVpc) : VpcInfo :=
  vpc.Tags.foldl tagStep
    { ID := ToString vpc.VpcId
      CidrBlock := ToString vpc.CidrBlock
      IsDefault := ToBool vpc.IsDefault
      Name := ""
      Tags := [] }

/-- The name of a record follows the `"Name"` tag of the entry it was built from: it is
the value stored under `"Name"` in the record's tag mapping when the entry has a tag
keyed `"Name"`, and it is empty when the entry has none. -/
def NameFromTag (vpc : SdkVpc) (info : VpcInfo) : Prop :=
  ((∃ tag ∈ vpc.Tags, ToString tag.Key = "Name") → GoMap.get? info.Tags "Name" = some info.Name) ∧
  ((∀ tag ∈ vpc.Tags, ToString tag.Key ≠ "Name") → info.Name = "")

/-- The tag mapping of a record holds exactly the tags of the entry it was built from:
its keys are distinct, they are the keys occurring in the tag list, and each key
carries the value of the last tag with that key. -/
def TagsFromList (vpc : SdkVpc) (info : VpcInfo) : Prop :=
  (GoMap.keys info.Tags).Nodup ∧
  (∀ k, k ∈ GoMap.keys info.Tags ↔ ∃ tag ∈ vpc.Tags, ToString tag.Key = k) ∧
  (∀ before tag after, vpc.Tags = before ++ tag :: after →
    (∀ later ∈ after, ToString later.Key ≠ ToString tag.Key) →
    GoMap.get? info.Tags (ToString tag.Key) = some (ToString tag.Value))

/-- The input of the unfiltered describe-VPCs call of `GetAllVpcs`. -/
def allVpcsInput : DescribeVpcsInput :=
  { VpcIds := [], Filters := [] }

/-- The input of the describe-VPCs call of `GetVpcById`. -/
def vpcByIdInput (vpcId : String) : DescribeVpcsInput :=
  { VpcIds := [vpcId], Filters := [] }

/-- The input of the describe-VPCs call of `GetDefaultVpc`. -/
def defaultVpcInput : DescribeVpcsInput :=
  { VpcIds := [], Filters := [{ Name := some "isDefault", Values := ["true"] }] }

/-- The load options built by `loadConfig` for a region and a profile. -/
def loadOptions (region profile : String) : List LoadOption :=
  if profile ≠ "" then [LoadOption.WithRegion region, LoadOption.WithSharedConfigProfile profile]
  else [LoadOption.WithRegion region]

/-! ### The scenario of the specification -/

/-- The entry `vpc-1`: default, tagged `Name=prod`. -/
def vpc1 : SdkVpc :=
  { VpcId := some "vpc-1", CidrBlock := some "10.0.0.0/16", IsDefault := some true,
    Tags := [{ Key := some "Name", Value := some "prod" }] }

/-- The entry `vpc-2`: not default, no tags. -/
def vpc2 : SdkVpc :=
  { VpcId := some "vpc-2", CidrBlock := some "172.31.0.0/16", IsDefault := some false, Tags := [] }

/-- The record expected for `vpc-1`. -/
def info1 : VpcInfo :=
  { ID := "vpc-1", CidrBlock := "10.0.0.0/16", IsDefault := true, Name := "prod",
    Tags := [("Name", "prod")] }

/-- The record expected for `vpc-2`. -/
def info2 : VpcInfo :=
  { ID := "vpc-2", CidrBlock := "172.31.0.0/16", IsDefault := false, Name := "", Tags := [] }

/-- An entry whose tag list carries the key `env` twice and a tag with nil key. -/
def repeatedTagsVpc : SdkVpc :=
  { VpcId := some "vpc-3", CidrBlock := some "10.1.0.0/16", IsDefault := none,
    Tags := [{ Key := some "env", Value := some "dev" }, { Key := none, Value := some "x" },
      { Key := some "env", Value := some "prod" }] }

/-- A configuration for region `us-west-2`. -/
def westConfig : Config :=
  { Region := "us-west-2" }

/-- A session manager for region `us-west-2`, no profile. -/
def westSm : SessionManager :=
  { region := "us-west-2", profile := "", config := westConfig }

/-- An identity answer. -/
def someIdentity : GetCallerIdentityOutput :=
  { Arn := some "arn:aws:iam::123456789012:user/dev", Account := some "123456789012" }

/-- An SDK whose describe-VPCs call answers `vpcs` whatever the input. -/
def sdkAnswering (vpcs : List SdkVpc) : Sdk :=
  { LoadDefaultConfig := fun _ _ => .ok westConfig
    GetCallerIdentity := fun _ _ => .ok someIdentity
    DescribeVpcs := fun _ _ _ => .ok { Vpcs := vpcs } }

/-- An SDK whose describe-VPCs call applies the filters the way the provider does on
the region holding `vpcs`: the identifiers asked for, and the `isDefault` filter. -/
def sdkFiltering (vpcs : List SdkVpc) : Sdk :=
  { LoadDefaultConfig := fun _ _ => .ok westConfig
    GetCallerIdentity := fun _ _ => .ok someIdentity
    DescribeVpcs := fun _ _ input =>
      let byId := if input.VpcIds = [] then vpcs
        else vpcs.filter (fun vpc => decide (ToString vpc.VpcId ∈ input.VpcIds))
      let byFlag := if input.Filters = [] then byId
        else byId.filter (fun vpc => ToBool vpc.IsDefault)
      .ok { Vpcs := byFlag } }

/-- An SDK whose describe-VPCs call fails with `err` whatever the input. -/
def sdkDescribeFailing (err : GoError) : Sdk :=
  { LoadDefaultConfig := fun _ _ => .ok westConfig
    GetCallerIdentity := fun _ _ => .ok someIdentity
    DescribeVpcs := fun _ _ _ => .error err }

/-- An SDK whose unfiltered describe-VPCs call answers the two entries of the scenario
and whose filtered describe-VPCs call fails with `err`. -/
def sdkFilteredFailing (err : GoError) : Sdk :=
  { LoadDefaultConfig := fun _ _ => .ok westConfig
    GetCallerIdentity := fun _ _ => .ok someIdentity
    DescribeVpcs := fun _ _ input =>
      if input.Filters = [] then .ok { Vpcs := [vpc1, vpc2] } else .error err }

/-- An SDK whose identity call is rejected with `err`. -/
def sdkRejecting (err : GoError) : Sdk :=
  { LoadDefaultConfig := fun _ _ => .ok westConfig
    GetCallerIdentity := fun _ _ => .error err
    DescribeVpcs := fun _ _ _ => .ok { Vpcs := [vpc1, vpc2] } }

/-- A transport error of the SDK. -/
def transportError : GoError :=
  .leaf "RequestError: send request failed"

/-! ## Lemmas on maps and on the tag loop -/

theorem GoMap.get?_set (m : GoMap) (k v k' : String) :
    GoMap.get? (GoMap.set m k v) k' = if k = k' then some v else GoMap.get? m k' := by
  induction m with
  | nil => simp [GoMap.set, GoMap.get?]
  | cons e rest ih =>
    obtain ⟨a, b⟩ := e
    by_cases h : a = k
    · subst h
      by_cases h2 : a = k' <;> simp [GoMap.set, GoMap.get?, h2]
    · by_cases h2 : a = k'
      · subst h2
        simp [GoMap.set, GoMap.get?, h, Ne.symm h]
      · simp [GoMap.set, GoMap.get?, h, h2, ih]

theorem GoMap.mem_keys_set (m : GoMap) (k v k' : String) :
    k' ∈ GoMap.keys (GoMap.set m k v) ↔ k' = k ∨ k' ∈ GoMap.keys m := by
  induction m with
  | nil => simp [GoMap.set, GoMap.keys]
  | cons e rest ih =>
    obtain ⟨a, b⟩ := e
    by_cases h : a = k
    · subst h
      simp [GoMap.set, GoMap.keys]
    · simp only [GoMap.keys] at ih
      simp [GoMap.set, GoMap.keys, h, ih]
      tauto

theorem GoMap.nodup_keys_set (m : GoMap) (k v : String) (h : (GoMap.keys m).Nodup) :
    (GoMap.keys (GoMap.set m k v)).Nodup := by
  induction m with
  | nil => simp [GoMap.set, GoMap.keys]
  | cons e rest ih =>
    obtain ⟨a, b⟩ := e
    have hrest : (GoMap.keys rest).Nodup := (List.nodup_cons.mp h).2
    have ha : a ∉ GoMap.keys rest := (List.nodup_cons.mp h).1
    by_cases hk : a = k
    · subst hk
      simpa [GoMap.set, GoMap.keys] using h
    · have hmem : a ∉ GoMap.keys (GoMap.set rest k v) := by
        rw [GoMap.mem_keys_set]
        rintro (h1 | h1)
        · exact hk h1
        · exact ha h1
      have : GoMap.keys (GoMap.set ((a, b) :: rest) k v) = a :: GoMap.keys (GoMap.set rest k v) := by
        simp [GoMap.set, GoMap.keys, hk]
      rw [this]
      exact List.nodup_cons.mpr ⟨hmem, ih hrest⟩

theorem tagStep_Tags (info : VpcInfo) (tag : Tag) :
    (tagStep info tag).Tags = GoMap.set info.Tags (ToString tag.Key) (ToString tag.Value) := by
  unfold tagStep
  by_cases h : ToString tag.Key = "Name" <;> simp [h]

theorem tagStep_Name (info : VpcInfo) (tag : Tag) :
    (tagStep info tag).Name =
      if ToString tag.Key = "Name" then ToString tag.Value else info.Name := by
  unfold tagStep
  by_cases h : ToString tag.Key = "Name" <;> simp [h]

theorem tagStep_fixed (info : VpcInfo) (tag : Tag) :
    (tagStep info tag).ID = info.ID ∧ (tagStep info tag).CidrBlock = info.CidrBlock ∧
      (tagStep info tag).IsDefault = info.IsDefault := by
  unfold tagStep
  by_cases h : ToString tag.Key = "Name" <;> simp [h]

theorem foldl_tagStep_fixed (tags : List Tag) (info : VpcInfo) :
    (tags.foldl tagStep info).ID = info.ID ∧
      (tags.foldl tagStep info).CidrBlock = info.CidrBlock ∧
      (tags.foldl tagStep info).IsDefault = info.IsDefault := by
  induction tags generalizing info with
  | nil => simp
  | cons t rest ih =>
    have h1 := ih (tagStep info t)
    have h2 := tagStep_fixed info t
    simp only [List.foldl_cons]
    exact ⟨h1.1.trans h2.1, h1.2.1.trans h2.2.1, h1.2.2.trans h2.2.2⟩

theorem foldl_append_singleton {α β : Type} (f : α → β) (l : List α) (acc : List β) :
    l.foldl (fun (out : List β) (x : α) => out ++ [f x]) acc = acc ++ l.map f := by
  induction l generalizing acc with
  | nil => simp
  | cons x rest ih => simp [ih]

theorem vpcRecord_fixed (vpc : SdkVpc) :
    (vpcRecord vpc).ID = ToString vpc.VpcId ∧
      (vpcRecord vpc).CidrBlock = ToString vpc.CidrBlock ∧
      (vpcRecord vpc).IsDefault = ToBool vpc.IsDefault := by
  unfold vpcRecord
  exact foldl_tagStep_fixed vpc.Tags _

/-- The tag loop leaves every key untouched that none of its tags carries. -/
theorem foldl_tagStep_get?_of_not_mem (tags : List Tag) (info : VpcInfo) (k : String)
    (h : ∀ tag ∈ tags, ToString tag.Key ≠ k) :
    GoMap.get? (tags.foldl tagStep info).Tags k = GoMap.get? info.Tags k := by
  induction tags generalizing info with
  | nil => simp
  | cons t rest ih =>
    simp only [List.foldl_cons]
    rw [ih (tagStep info t) (fun tag ht => h tag (List.mem_cons_of_mem _ ht))]
    rw [tagStep_Tags, GoMap.get?_set]
    simp [h t (List.mem_cons_self _ _)]

theorem foldl_tagStep_mem_keys (tags : List Tag) (info : VpcInfo) (k : String) :
    k ∈ GoMap.keys (tags.foldl tagStep info).Tags ↔
      k ∈ GoMap.keys info.Tags ∨ ∃ tag ∈ tags, ToString tag.Key = k := by
  induction tags generalizing info with
  | nil => simp
  | cons t rest ih =>
    simp only [List.foldl_cons]
    rw [ih (tagStep info t), tagStep_Tags, GoMap.mem_keys_set]
    constructor
    · rintro ((h | h) | ⟨tag, ht, hk⟩)
      · exact Or.inr ⟨t, List.mem_cons_self _ _, h.symm⟩
      · exact Or.inl h
      · exact Or.inr ⟨tag, List.mem_cons_of_mem _ ht, hk⟩
    · rintro (h | ⟨tag, ht, hk⟩)
      · exact Or.inl (Or.inr h)
      · rcases List.mem_cons.mp ht with h1 | h1
        · subst h1
          exact Or.inl (Or.inl hk.symm)
        · exact Or.inr ⟨tag, h1, hk⟩

theorem foldl_tagStep_nodup (tags : List Tag) (info : VpcInfo)
    (h : (GoMap.keys info.Tags).Nodup) :
    (GoMap.keys (tags.foldl tagStep info).Tags).Nodup := by
  induction tags generalizing info with
  | nil => simpa using h
  | cons t rest ih =>
    simp only [List.foldl_cons]
    apply ih
    rw [tagStep_Tags]
    exact GoMap.nodup_keys_set _ _ _ h

theorem foldl_tagStep_last (before after : List Tag) (tag : Tag) (info : VpcInfo)
    (h : ∀ later ∈ after, ToString later.Key ≠ ToString tag.Key) :
    GoMap.get? ((before ++ tag :: after).foldl tagStep info).Tags (ToString tag.Key) =
      some (ToString tag.Value) := by
  rw [List.foldl_append, List.foldl_cons, foldl_tagStep_get?_of_not_mem _ _ _ h,
    tagStep_Tags, GoMap.get?_set]
  simp

/-- The name and the `"Name"` entry move together through the tag loop. -/
theorem foldl_tagStep_name (tags : List Tag) (info : VpcInfo) :
    ((∃ tag ∈ tags, ToString tag.Key = "Name") →
      GoMap.get? (tags.foldl tagStep info).Tags "Name" = some (tags.foldl tagStep info).Name) ∧
    ((∀ tag ∈ tags, ToString tag.Key ≠ "Name") → (tags.foldl tagStep info).Name = info.Name) := by
  induction tags using List.reverseRecOn with
  | nil => simp
  | append_singleton rest t ih =>
    simp only [List.foldl_append, List.foldl_cons, List.foldl_nil]
    rw [tagStep_Tags, tagStep_Name, GoMap.get?_set]
    constructor
    · rintro ⟨tag, ht, hk⟩
      by_cases hlast : ToString t.Key = "Name"
      · simp [hlast]
      · simp only [hlast, if_false]
        rcases List.mem_append.mp ht with h1 | h1
        · exact ih.1 ⟨tag, h1, hk⟩
        · simp only [List.mem_singleton] at h1
          subst h1
          exact absurd hk hlast
    · intro hall
      have hlast : ToString t.Key ≠ "Name" := hall t (by simp)
      simp only [hlast, if_false]
      exact ih.2 (fun tag ht => hall tag (List.mem_append_left _ ht))

theorem vpcRecord_NameFromTag (vpc : SdkVpc) : NameFromTag vpc (vpcRecord vpc) := by
  unfold NameFromTag vpcRecord
  exact foldl_tagStep_name vpc.Tags _

theorem vpcRecord_TagsFromList (vpc : SdkVpc) : TagsFromList vpc (vpcRecord vpc) := by
  unfold TagsFromList vpcRecord
  refine ⟨foldl_tagStep_nodup _ _ (by simp [GoMap.keys]), ?_, ?_⟩
  · intro k
    rw [foldl_tagStep_mem_keys]
    simp [GoMap.keys]
  · intro before tag after hsplit hlater
    rw [hsplit]
    exact foldl_tagStep_last before after tag _ hlater

/-! ## Closed forms of the three lookups -/

theorem GetAllVpcs_eq (sdk : Sdk) (sm : SessionManager) (w : World) :
    GetAllVpcs sdk sm w =
      match sdk.DescribeVpcs w.calls.length sm.config allVpcsInput with
      | .error err =>
        (.error (errorfW "failed to describe VPCs: " err),
          w.issue (.DescribeVpcs sm.config allVpcsInput))
      | .ok result =>
        (.ok (result.Vpcs.map vpcRecord), w.issue (.DescribeVpcs sm.config allVpcsInput)) := by
  unfold GetAllVpcs
  simp only [GetEC2Client, EC2Client.DescribeVpcs, allVpcsInput]
  cases h : sdk.DescribeVpcs w.calls.length sm.config { VpcIds := [], Filters := [] } with
  | error err => rfl
  | ok result =>
    simp only
    have := foldl_append_singleton vpcRecord result.Vpcs []
    simp only [List.nil_append] at this
    rw [← this]
    rfl

theorem GetVpcById_eq (sdk : Sdk) (sm : SessionManager) (vpcId : String) (w : World) :
    GetVpcById sdk sm vpcId w =
      match sdk.DescribeVpcs w.calls.length sm.config (vpcByIdInput vpcId) with
      | .error err =>
        (.error (errorfW ("failed to describe VPC " ++ vpcId ++ ": ") err),
          w.issue (.DescribeVpcs sm.config (vpcByIdInput vpcId)))
      | .ok result =>
        match result.Vpcs with
        | [] =>
          (.error (errorf ("VPC " ++ vpcId ++ " not found")),
            w.issue (.DescribeVpcs sm.config (vpcByIdInput vpcId)))
        | vpc :: _ => (.ok (vpcRecord vpc), w.issue (.DescribeVpcs sm.config (vpcByIdInput vpcId))) := by
  unfold GetVpcById
  simp only [GetEC2Client, EC2Client.DescribeVpcs, vpcByIdInput]
  cases h : sdk.DescribeVpcs w.calls.length sm.config { VpcIds := [vpcId], Filters := [] } with
  | error err => rfl
  | ok result =>
    simp only
    cases result.Vpcs with
    | nil => rfl
    | cons vpc rest => rfl

theorem GetDefaultVpc_eq (sdk : Sdk) (sm : SessionManager) (w : World) :
    GetDefaultVpc sdk sm w =
      match sdk.DescribeVpcs w.calls.length sm.config defaultVpcInput with
      | .error err =>
        (.error (errorfW "failed to describe VPCs: " err),
          w.issue (.DescribeVpcs sm.config defaultVpcInput))
      | .ok result =>
        match result.Vpcs with
        | [] =>
          (.error (errorf ("no default VPC found in region " ++ sm.region)),
            w.issue (.DescribeVpcs sm.config defaultVpcInput))
        | vpc :: _ => (.ok (vpcRecord vpc), w.issue (.DescribeVpcs sm.config defaultVpcInput)) := by
  unfold GetDefaultVpc
  simp only [GetEC2Client, EC2Client.DescribeVpcs, defaultVpcInput]
  cases h : sdk.DescribeVpcs w.calls.length sm.config
      { VpcIds := [], Filters := [{ Name := some "isDefault", Values := ["true"] }] } with
  | error err => rfl
  | ok result =>
    simp only
    cases result.Vpcs with
    | nil => rfl
    | cons vpc rest => rfl

theorem GetVpcById_error (sdk : Sdk) (sm : SessionManager) (vpcId : String) (w : World)
    (err : GoError)
    (h : sdk.DescribeVpcs w.calls.length sm.config (vpcByIdInput vpcId) = .error err) :
    (GetVpcById sdk sm vpcId w).1 =
      .error (errorfW ("failed to describe VPC " ++ vpcId ++ ": ") err) := by
  rw [GetVpcById_eq, h]

theorem GetVpcById_nil (sdk : Sdk) (sm : SessionManager) (vpcId : String) (w : World)
    (resp : DescribeVpcsOutput)
    (h : sdk.DescribeVpcs w.calls.length sm.config (vpcByIdInput vpcId) = .ok resp)
    (hv : resp.Vpcs = []) :
    (GetVpcById sdk sm vpcId w).1 = .error (errorf ("VPC " ++ vpcId ++ " not found")) := by
  rw [GetVpcById_eq, h]
  simp only [hv]

theorem GetVpcById_cons (sdk : Sdk) (sm : SessionManager) (vpcId : String) (w : World)
    (resp : DescribeVpcsOutput) (vpc : SdkVpc) (rest : List SdkVpc)
    (h : sdk.DescribeVpcs w.calls.length sm.config (vpcByIdInput vpcId) = .ok resp)
    (hv : resp.Vpcs = vpc :: rest) :
    (GetVpcById sdk sm vpcId w).1 = .ok (vpcRecord vpc) := by
  rw [GetVpcById_eq, h]
  simp only [hv]

theorem GetDefaultVpc_error (sdk : Sdk) (sm : SessionManager) (w : World) (err : GoError)
    (h : sdk.DescribeVpcs w.calls.length sm.config defaultVpcInput = .error err) :
    (GetDefaultVpc sdk sm w).1 = .error (errorfW "failed to describe VPCs: " err) := by
  rw [GetDefaultVpc_eq, h]

theorem GetDefaultVpc_nil (sdk : Sdk) (sm : SessionManager) (w : World)
    (resp : DescribeVpcsOutput)
    (h : sdk.DescribeVpcs w.calls.length sm.config defaultVpcInput = .ok resp)
    (hv : resp.Vpcs = []) :
    (GetDefaultVpc sdk sm w).1 =
      .error (errorf ("no default VPC found in region " ++ sm.region)) := by
  rw [GetDefaultVpc_eq, h]
  simp only [hv]

theorem GetDefaultVpc_cons (sdk : Sdk) (sm : SessionManager) (w : World)
    (resp : DescribeVpcsOutput) (vpc : SdkVpc) (rest : List SdkVpc)
    (h : sdk.DescribeVpcs w.calls.length sm.config defaultVpcInput = .ok resp)
    (hv : resp.Vpcs = vpc :: rest) :
    (GetDefaultVpc sdk sm w).1 = .ok (vpcRecord vpc) := by
  rw [GetDefaultVpc_eq, h]
  simp only [hv]

/-! ## The VPC mapping -/

/-- C1: in each of the three lookups, the record built for an entry of a describe
response has as name the value stored under `"Name"` in its own tag mapping when the
entry has a tag keyed `"Name"`, and the empty name when it has none. `GetAllVpcs`
builds one such record per entry, in order; `GetVpcById` and `GetDefaultVpc` build it
for the first entry. -/
theorem name_follows_name_tag (sdk : Sdk) (sm : SessionManager) (w : World) (vpcId : String)
    (resp : DescribeVpcsOutput) :
    (sdk.DescribeVpcs w.calls.length sm.config allVpcsInput = .ok resp →
      ∃ vpcs, (GetAllVpcs sdk sm w).1 = .ok vpcs ∧ List.Forall₂ NameFromTag resp.Vpcs vpcs) ∧
    (sdk.DescribeVpcs w.calls.length sm.config (vpcByIdInput vpcId) = .ok resp →
      ∀ vpc rest, resp.Vpcs = vpc :: rest →
        ∃ info, (GetVpcById sdk sm vpcId w).1 = .ok info ∧ NameFromTag vpc info) ∧
    (sdk.DescribeVpcs w.calls.length sm.config defaultVpcInput = .ok resp →
      ∀ vpc rest, resp.Vpcs = vpc :: rest →
        ∃ info, (GetDefaultVpc sdk sm w).1 = .ok info ∧ NameFromTag vpc info) := by
  refine ⟨?_, ?_, ?_⟩
  · intro h
    refine ⟨resp.Vpcs.map vpcRecord, by rw [GetAllVpcs_eq, h], ?_⟩
    rw [List.forall₂_map_right_iff]
    exact List.forall₂_same.mpr (fun vpc _ => vpcRecord_NameFromTag vpc)
  · intro h vpc rest hv
    exact ⟨vpcRecord vpc, by rw [GetVpcById_eq, h]; simp only [hv], vpcRecord_NameFromTag vpc⟩
  · intro h vpc rest hv
    exact ⟨vpcRecord vpc, by rw [GetDefaultVpc_eq, h]; simp only [hv], vpcRecord_NameFromTag vpc⟩

/-- Witness of C1 on the two-entry scenario. -/
theorem name_follows_name_tag_witness :
    ∃ vpcs, (GetAllVpcs (sdkAnswering [vpc1, vpc2]) westSm World.init).1 = .ok vpcs ∧
      List.Forall₂ NameFromTag [vpc1, vpc2] vpcs :=
  (name_follows_name_tag (sdkAnswering [vpc1, vpc2]) westSm World.init "vpc-1"
    { Vpcs := [vpc1, vpc2] }).1 rfl

/-- C2: on a successful response with entries `v_1..v_n`, `GetAllVpcs` returns `n`
records and the `i`-th is the record built from `v_i`, with the identifier, CIDR block
and default flag of `v_i`; on the two-entry scenario the result is the two records
named `"prod"` and `""`. -/
theorem GetAllVpcs_maps_every_entry :
    (∀ (sdk : Sdk) (sm : SessionManager) (w : World) (resp : DescribeVpcsOutput),
      sdk.DescribeVpcs w.calls.length sm.config allVpcsInput = .ok resp →
      ∃ vpcs, (GetAllVpcs sdk sm w).1 = .ok vpcs ∧ vpcs.length = resp.Vpcs.length ∧
        ∀ (i : Nat) (h1 : i < resp.Vpcs.length) (h2 : i < vpcs.length),
          vpcs[i] = vpcRecord resp.Vpcs[i] ∧
          vpcs[i].ID = ToString resp.Vpcs[i].VpcId ∧
          vpcs[i].CidrBlock = ToString resp.Vpcs[i].CidrBlock ∧
          vpcs[i].IsDefault = ToBool resp.Vpcs[i].IsDefault) ∧
    (GetAllVpcs (sdkAnswering [vpc1, vpc2]) westSm World.init).1 = .ok [info1, info2] ∧
    [info1, info2].map VpcInfo.Name = ["prod", ""] := by
  refine ⟨?_, rfl, rfl⟩
  intro sdk sm w resp h
  refine ⟨resp.Vpcs.map vpcRecord, by rw [GetAllVpcs_eq, h], by simp, ?_⟩
  intro i h1 h2
  have hrec : (resp.Vpcs.map vpcRecord)[i] = vpcRecord resp.Vpcs[i] := by simp
  rw [hrec]
  exact ⟨rfl, vpcRecord_fixed _⟩

/-- Witness of C2: a three-entry response gives three records. -/
theorem GetAllVpcs_maps_every_entry_witness :
    ∃ vpcs, (GetAllVpcs (sdkAnswering [vpc2, vpc1, vpc2]) westSm World.init).1 = .ok vpcs ∧
      vpcs.length = 3 ∧
      ∀ (i : Nat) (h1 : i < 3) (h2 : i < vpcs.length),
        vpcs[i] = vpcRecord [vpc2, vpc1, vpc2][i] ∧
        vpcs[i].ID = ToString [vpc2, vpc1, vpc2][i].VpcId ∧
        vpcs[i].CidrBlock = ToString [vpc2, vpc1, vpc2][i].CidrBlock ∧
        vpcs[i].IsDefault = ToBool [vpc2, vpc1, vpc2][i].IsDefault :=
  GetAllVpcs_maps_every_entry.1 (sdkAnswering [vpc2, vpc1, vpc2]) westSm World.init
    { Vpcs := [vpc2, vpc1, vpc2] } rfl

/-- C9: in each of the three lookups, the tag mapping of the record built for an entry
has distinct keys, its keys are exactly the keys occurring in the tag list of the entry
(a nil key or value read as the empty string), and each key carries the value of the
last tag with that key. -/
theorem tags_follow_tag_list (sdk : Sdk) (sm : SessionManager) (w : World) (vpcId : String)
    (resp : DescribeVpcsOutput) :
    (sdk.DescribeVpcs w.calls.length sm.config allVpcsInput = .ok resp →
      ∃ vpcs, (GetAllVpcs sdk sm w).1 = .ok vpcs ∧ List.Forall₂ TagsFromList resp.Vpcs vpcs) ∧
    (sdk.DescribeVpcs w.calls.length sm.config (vpcByIdInput vpcId) = .ok resp →
      ∀ vpc rest, resp.Vpcs = vpc :: rest →
        ∃ info, (GetVpcById sdk sm vpcId w).1 = .ok info ∧ TagsFromList vpc info) ∧
    (sdk.DescribeVpcs w.calls.length sm.config defaultVpcInput = .ok resp →
      ∀ vpc rest, resp.Vpcs = vpc :: rest →
        ∃ info, (GetDefaultVpc sdk sm w).1 = .ok info ∧ TagsFromList vpc info) := by
  refine ⟨?_, ?_, ?_⟩
  · intro h
    refine ⟨resp.Vpcs.map vpcRecord, by rw [GetAllVpcs_eq, h], ?_⟩
    rw [List.forall₂_map_right_iff]
    exact List.forall₂_same.mpr (fun vpc _ => vpcRecord_TagsFromList vpc)
  · intro h vpc rest hv
    exact ⟨vpcRecord vpc, by rw [GetVpcById_eq, h]; simp only [hv], vpcRecord_TagsFromList vpc⟩
  · intro h vpc rest hv
    exact ⟨vpcRecord vpc, by rw [GetDefaultVpc_eq, h]; simp only [hv], vpcRecord_TagsFromList vpc⟩

/-- Witness of C9 on an entry whose tag list repeats a key. -/
theorem tags_follow_tag_list_witness :
    ∃ vpcs, (GetAllVpcs (sdkAnswering [repeatedTagsVpc]) westSm World.init).1 = .ok vpcs ∧
      List.Forall₂ TagsFromList [repeatedTagsVpc] vpcs :=
  (tags_follow_tag_list (sdkAnswering [repeatedTagsVpc]) westSm World.init "vpc-3"
    { Vpcs := [repeatedTagsVpc] }).1 rfl

/-- C10: when the describe calls of the three lookups answer with the same first entry,
whatever follows it, `GetVpcById` and `GetDefaultVpc` both return exactly the first
record of `GetAllVpcs`. -/
theorem lookups_return_first_record (sdk : Sdk) (sm : SessionManager) (w : World)
    (vpcId : String) (vpc : SdkVpc) (restAll restById restDefault : List SdkVpc)
    (hall : sdk.DescribeVpcs w.calls.length sm.config allVpcsInput =
      .ok { Vpcs := vpc :: restAll })
    (hid : sdk.DescribeVpcs w.calls.length sm.config (vpcByIdInput vpcId) =
      .ok { Vpcs := vpc :: restById })
    (hdef : sdk.DescribeVpcs w.calls.length sm.config defaultVpcInput =
      .ok { Vpcs := vpc :: restDefault }) :
    ∃ first others, (GetAllVpcs sdk sm w).1 = .ok (first :: others) ∧
      (GetVpcById sdk sm vpcId w).1 = .ok first ∧
      (GetDefaultVpc sdk sm w).1 = .ok first := by
  refine ⟨vpcRecord vpc, restAll.map vpcRecord, ?_, ?_, ?_⟩
  · rw [GetAllVpcs_eq, hall]
    rfl
  · rw [GetVpcById_eq, hid]
  · rw [GetDefaultVpc_eq, hdef]

/-- Witness of C10 on the two-entry scenario. -/
theorem lookups_return_first_record_witness :
    ∃ first others,
      (GetAllVpcs (sdkAnswering [vpc1, vpc2]) westSm World.init).1 = .ok (first :: others) ∧
      (GetVpcById (sdkAnswering [vpc1, vpc2]) westSm "vpc-1" World.init).1 = .ok first ∧
      (GetDefaultVpc (sdkAnswering [vpc1, vpc2]) westSm World.init).1 = .ok first :=
  lookups_return_first_record (sdkAnswering [vpc1, vpc2]) westSm World.init "vpc-1" vpc1
    [vpc2] [vpc2] [vpc2] rfl rfl rfl

/-! ## GetVpcById -/

/-- C3, as stated, fails: the code never compares identifiers. When the describe call
answers the single entry `vpc-2` to the request for `vpc-1`, no entry of the response
has identifier `vpc-1`, and yet `GetVpcById` returns the record of `vpc-2`. -/
theorem GetVpcById_returns_mismatched_id :
    (∀ vpc ∈ [vpc2], ToString vpc.VpcId ≠ "vpc-1") ∧
    (GetVpcById (sdkAnswering [vpc2]) westSm "vpc-1" World.init).1 = .ok info2 ∧
    (GetVpcById (sdkAnswering [vpc2]) westSm "vpc-1" World.init).1 ≠
      .error (errorf "VPC vpc-1 not found") ∧
    info2.ID ≠ "vpc-1" := by
  refine ⟨?_, rfl, ?_, by decide⟩
  · intro vpc hv
    simp only [List.mem_singleton] at hv
    subst hv
    decide
  · rw [GetVpcById_eq]
    intro h
    cases h

/-- C3, amended: when the first entry of every successful answer to the describe call
for `vpcId` carries the identifier `vpcId` (as when the provider applies the
identifier filter), `GetVpcById` yields the not-found error whenever no entry of the
answer has identifier `vpcId`, and every record it returns has identifier `vpcId`. -/
theorem GetVpcById_id_of_filtered_response (sdk : Sdk) (sm : SessionManager) (w : World)
    (vpcId : String)
    (hfirst : ∀ resp vpc,
      sdk.DescribeVpcs w.calls.length sm.config (vpcByIdInput vpcId) = .ok resp →
      resp.Vpcs.head? = some vpc → ToString vpc.VpcId = vpcId) :
    (∀ resp, sdk.DescribeVpcs w.calls.length sm.config (vpcByIdInput vpcId) = .ok resp →
      (∀ vpc ∈ resp.Vpcs, ToString vpc.VpcId ≠ vpcId) →
      (GetVpcById sdk sm vpcId w).1 = .error (errorf ("VPC " ++ vpcId ++ " not found"))) ∧
    (∀ info, (GetVpcById sdk sm vpcId w).1 = .ok info → info.ID = vpcId) := by
  constructor
  · intro resp h hnone
    cases hv : resp.Vpcs with
    | nil => exact GetVpcById_nil sdk sm vpcId w resp h hv
    | cons vpc rest =>
      have h1 : ToString vpc.VpcId = vpcId := hfirst resp vpc h (by rw [hv]; rfl)
      exact absurd h1 (hnone vpc (by rw [hv]; exact List.mem_cons_self _ _))
  · intro info hinfo
    cases h : sdk.DescribeVpcs w.calls.length sm.config (vpcByIdInput vpcId) with
    | error err =>
      rw [GetVpcById_error sdk sm vpcId w err h] at hinfo
      cases hinfo
    | ok resp =>
      cases hv : resp.Vpcs with
      | nil =>
        rw [GetVpcById_nil sdk sm vpcId w resp h hv] at hinfo
        cases hinfo
      | cons vpc rest =>
        rw [GetVpcById_cons sdk sm vpcId w resp vpc rest h hv] at hinfo
        have h1 : ToString vpc.VpcId = vpcId := hfirst resp vpc h (by rw [hv]; rfl)
        have h2 : vpcRecord vpc = info := Except.ok.inj hinfo
        rw [← h2, (vpcRecord_fixed vpc).1, h1]

/-- Witness of the amended C3: a provider that filters the two-entry region by
identifier, asked for `vpc-2`. -/
theorem GetVpcById_id_of_filtered_response_witness :
    (∀ resp, (sdkFiltering [vpc1, vpc2]).DescribeVpcs World.init.calls.length westSm.config
        (vpcByIdInput "vpc-2") = .ok resp →
      (∀ vpc ∈ resp.Vpcs, ToString vpc.VpcId ≠ "vpc-2") →
      (GetVpcById (sdkFiltering [vpc1, vpc2]) westSm "vpc-2" World.init).1 =
        .error (errorf ("VPC " ++ "vpc-2" ++ " not found"))) ∧
    (∀ info, (GetVpcById (sdkFiltering [vpc1, vpc2]) westSm "vpc-2" World.init).1 = .ok info →
      info.ID = "vpc-2") :=
  GetVpcById_id_of_filtered_response (sdkFiltering [vpc1, vpc2]) westSm World.init "vpc-2"
    (fun resp vpc h hhead => by
      have h1 : (Except.ok { Vpcs := [vpc2] } : Except GoError DescribeVpcsOutput) = .ok resp := h
      have h2 : resp = { Vpcs := [vpc2] } := (Except.ok.inj h1).symm
      subst h2
      have h3 : vpc2 = vpc := Option.some.inj hhead
      subst h3
      rfl)

/-- C4: `GetVpcById` fails with the error wrapping the provider error and naming the
identifier exactly when the describe call fails; it fails with `VPC <id> not found`
exactly when the call succeeds with zero entries; it returns a record exactly when
the call succeeds with at least one entry. -/
theorem GetVpcById_outcomes (sdk : Sdk) (sm : SessionManager) (w : World) (vpcId : String) :
    (∀ err, (GetVpcById sdk sm vpcId w).1 =
        .error (errorfW ("failed to describe VPC " ++ vpcId ++ ": ") err) ↔
      sdk.DescribeVpcs w.calls.length sm.config (vpcByIdInput vpcId) = .error err) ∧
    ((GetVpcById sdk sm vpcId w).1 = .error (errorf ("VPC " ++ vpcId ++ " not found")) ↔
      ∃ resp, sdk.DescribeVpcs w.calls.length sm.config (vpcByIdInput vpcId) = .ok resp ∧
        resp.Vpcs = []) ∧
    ((∃ info, (GetVpcById sdk sm vpcId w).1 = .ok info) ↔
      ∃ resp, sdk.DescribeVpcs w.calls.length sm.config (vpcByIdInput vpcId) = .ok resp ∧
        resp.Vpcs ≠ []) := by
  cases h : sdk.DescribeVpcs w.calls.length sm.config (vpcByIdInput vpcId) with
  | error e =>
    rw [GetVpcById_error sdk sm vpcId w e h]
    refine ⟨?_, ?_, ?_⟩
    · intro err
      constructor
      · intro h1
        simp only [errorfW, Except.error.injEq, GoError.wrap.injEq] at h1
        rw [h1.2]
      · intro h1
        cases h1
        rfl
    · simp [errorfW, errorf]
    · simp
  | ok resp =>
    cases hv : resp.Vpcs with
    | nil =>
      rw [GetVpcById_nil sdk sm vpcId w resp h hv]
      refine ⟨?_, ?_, ?_⟩
      · intro err
        simp [errorfW, errorf]
      · simp [hv]
      · simp [hv]
    | cons vpc rest =>
      rw [GetVpcById_cons sdk sm vpcId w resp vpc rest h hv]
      refine ⟨?_, ?_, ?_⟩
      · intro err
        simp
      · simp [hv]
      · simp [hv]

/-- Witness of C4: a failing describe call gives the wrapping error, whose text names
the identifier and carries the provider text. -/
theorem GetVpcById_outcomes_witness :
    (GetVpcById (sdkDescribeFailing transportError) westSm "vpc-9" World.init).1 =
      .error (.wrap "failed to describe VPC vpc-9: RequestError: send request failed"
        transportError) :=
  ((GetVpcById_outcomes (sdkDescribeFailing transportError) westSm World.init "vpc-9").1
    transportError).2 rfl

/-! ## GetDefaultVpc -/

/-- C5, as stated, fails: the code never reads the default flag to choose. On the
answer `[vpc-2, vpc-1]`, which holds exactly one default-flagged entry (`vpc-1`),
`GetDefaultVpc` returns the record of `vpc-2`; on the answer `[vpc-2]`, which holds no
default-flagged entry, it returns the record of `vpc-2` instead of the not-found
error. -/
theorem GetDefaultVpc_ignores_flag :
    [vpc2, vpc1].filter (fun vpc => ToBool vpc.IsDefault) = [vpc1] ∧
    (GetDefaultVpc (sdkAnswering [vpc2, vpc1]) westSm World.init).1 = .ok info2 ∧
    info2 ≠ info1 ∧
    [vpc2].filter (fun vpc => ToBool vpc.IsDefault) = [] ∧
    (GetDefaultVpc (sdkAnswering [vpc2]) westSm World.init).1 = .ok info2 := by
  refine ⟨rfl, rfl, by decide, rfl, rfl⟩

/-- C5, amended: when the first entry of every successful answer to the filtered
describe call is default-flagged (as when the provider applies the `isDefault`
filter, or when the default VPC comes first), `GetDefaultVpc` yields the not-found
error on an answer with no default-flagged entry and the record of the default-flagged
entry on an answer with exactly one; on the two-entry scenario it returns the `vpc-1`
record. -/
theorem GetDefaultVpc_of_filtered_response :
    (∀ (sdk : Sdk) (sm : SessionManager) (w : World),
      (∀ resp vpc, sdk.DescribeVpcs w.calls.length sm.config defaultVpcInput = .ok resp →
        resp.Vpcs.head? = some vpc → ToBool vpc.IsDefault = true) →
      ∀ resp, sdk.DescribeVpcs w.calls.length sm.config defaultVpcInput = .ok resp →
        ((∀ vpc ∈ resp.Vpcs, ToBool vpc.IsDefault = false) →
          (GetDefaultVpc sdk sm w).1 =
            .error (errorf ("no default VPC found in region " ++ sm.region))) ∧
        (∀ vpc, resp.Vpcs.filter (fun v => ToBool v.IsDefault) = [vpc] →
          (GetDefaultVpc sdk sm w).1 = .ok (vpcRecord vpc))) ∧
    (GetDefaultVpc (sdkAnswering [vpc1, vpc2]) westSm World.init).1 = .ok info1 ∧
    (GetDefaultVpc (sdkFiltering [vpc1, vpc2]) westSm World.init).1 = .ok info1 := by
  refine ⟨?_, rfl, rfl⟩
  intro sdk sm w hfirst resp h
  cases hv : resp.Vpcs with
  | nil =>
    refine ⟨fun _ => GetDefaultVpc_nil sdk sm w resp h hv, ?_⟩
    intro vpc hone
    simp at hone
  | cons first rest =>
    have h1 : ToBool first.IsDefault = true := hfirst resp first h (by rw [hv]; rfl)
    constructor
    · intro hnone
      have h2 := hnone first (List.mem_cons_self _ _)
      rw [h1] at h2
      cases h2
    · intro vpc hone
      have h3 : List.filter (fun v => ToBool v.IsDefault) (first :: rest) =
          first :: List.filter (fun v => ToBool v.IsDefault) rest :=
        List.filter_cons_of_pos h1
      rw [h3] at hone
      have h4 : first = vpc := (List.cons.inj hone).1
      rw [← h4]
      exact GetDefaultVpc_cons sdk sm w resp first rest h hv

/-- Witness of the amended C5: a provider that applies the `isDefault` filter to a
region whose default VPC comes second. -/
theorem GetDefaultVpc_of_filtered_response_witness :
    ((∀ vpc ∈ [vpc1], ToBool vpc.IsDefault = false) →
      (GetDefaultVpc (sdkFiltering [vpc2, vpc1]) westSm World.init).1 =
        .error (errorf ("no default VPC found in region " ++ westSm.region))) ∧
    (∀ vpc, [vpc1].filter (fun v => ToBool v.IsDefault) = [vpc] →
      (GetDefaultVpc (sdkFiltering [vpc2, vpc1]) westSm World.init).1 = .ok (vpcRecord vpc)) :=
  GetDefaultVpc_of_filtered_response.1 (sdkFiltering [vpc2, vpc1]) westSm World.init
    (fun resp vpc h hhead => by
      have h1 : (Except.ok { Vpcs := [vpc1] } : Except GoError DescribeVpcsOutput) = .ok resp := h
      have h2 : resp = { Vpcs := [vpc1] } := (Except.ok.inj h1).symm
      subst h2
      have h3 : vpc1 = vpc := Option.some.inj hhead
      subst h3
      rfl)
    { Vpcs := [vpc1] } rfl

/-! ## Session manager -/

theorem loadConfig_eq (sdk : Sdk) (sm : SessionManager) (w : World) :
    loadConfig sdk sm w =
      match sdk.LoadDefaultConfig w.calls.length (loadOptions sm.region sm.profile) with
      | .error err =>
        (.error (errorfW "failed to load AWS configuration: " err),
          w.issue (.LoadDefaultConfig (loadOptions sm.region sm.profile)))
      | .ok cfg => (.ok cfg, w.issue (.LoadDefaultConfig (loadOptions sm.region sm.profile))) := by
  unfold loadConfig loadOptions
  by_cases h : sm.profile = "" <;> simp [h]

theorem set_append_length {α : Type} (l : List α) (a b : α) :
    (l ++ [a]).set l.length b = l ++ [b] := by
  induction l with
  | nil => rfl
  | cons x rest ih => simp [ih]

theorem NewSessionManager_ok (sdk : Sdk) (region profile : String) (w : World) (cfg : Config)
    (h : sdk.LoadDefaultConfig w.calls.length (loadOptions region profile) = .ok cfg) :
    NewSessionManager sdk region profile w =
      (.ok w.heap.length,
        { w with
          calls := w.calls ++ [.LoadDefaultConfig (loadOptions region profile)]
          heap := w.heap ++ [{ region := region, profile := profile, config := cfg }] }) := by
  unfold NewSessionManager
  simp only [loadConfig_eq, h, World.issue, set_append_length]

theorem NewSessionManager_error (sdk : Sdk) (region profile : String) (w : World)
    (err : GoError)
    (h : sdk.LoadDefaultConfig w.calls.length (loadOptions region profile) = .error err) :
    NewSessionManager sdk region profile w =
      (.error (errorfW "failed to load AWS configuration: " err),
        { w with
          calls := w.calls ++ [.LoadDefaultConfig (loadOptions region profile)]
          heap := w.heap ++ [{ region := region, profile := profile, config := { Region := "" } }] }) := by
  unfold NewSessionManager
  simp only [loadConfig_eq, h, World.issue]

theorem ValidateCredentials_eq (sdk : Sdk) (sm : SessionManager) (w : World) :
    ValidateCredentials sdk sm w =
      match sdk.GetCallerIdentity w.calls.length sm.config with
      | .error err =>
        (.error (errorfW "failed to validate AWS credentials: " err),
          w.issue (.GetCallerIdentity sm.config))
      | .ok _ => (.ok (), w.issue (.GetCallerIdentity sm.config)) := by
  unfold ValidateCredentials
  simp only [STSClient.GetCallerIdentity]
  cases sdk.GetCallerIdentity w.calls.length sm.config <;> rfl

theorem GetCallerIdentity_eq (sdk : Sdk) (sm : SessionManager) (w : World) :
    GetCallerIdentity sdk sm w =
      match sdk.GetCallerIdentity w.calls.length sm.config with
      | .error err =>
        (.error (errorfW "failed to get caller identity: " err),
          w.issue (.GetCallerIdentity sm.config))
      | .ok identity => (.ok identity, w.issue (.GetCallerIdentity sm.config)) := by
  unfold GetCallerIdentity
  simp only [STSClient.GetCallerIdentity]
  cases sdk.GetCallerIdentity w.calls.length sm.config <;> rfl

/-- C8: when the configuration loads for region `region` and the profile of `sm`,
`UseRegion` returns a pointer to a newly allocated session manager whose region is
`region` and whose profile is that of `sm`; every session manager allocated before the
call, `sm` included, is unchanged, so `GetRegion` on `sm` gives the same value as
before. -/
theorem UseRegion_new_manager_same_profile (sdk : Sdk) (sm : SessionManager)
    (region : String) (w : World) (p : Nat) (cfg : Config)
    (hp : w.heap[p]? = some sm)
    (hload : sdk.LoadDefaultConfig w.calls.length (loadOptions region sm.profile) = .ok cfg) :
    ∃ q fresh, (UseRegion sdk sm region w).1 = .ok q ∧ q ≠ p ∧ w.heap[q]? = none ∧
      (UseRegion sdk sm region w).2.heap[q]? = some fresh ∧
      fresh.region = region ∧ GetRegion fresh = region ∧ fresh.profile = sm.profile ∧
      fresh.config = cfg ∧
      (UseRegion sdk sm region w).2.heap[p]? = some sm ∧
      (∀ (p0 : Nat) (sm0 : SessionManager), w.heap[p0]? = some sm0 →
        (UseRegion sdk sm region w).2.heap[p0]? = some sm0) := by
  have hlt : p < w.heap.length := by
    by_contra hge
    rw [List.getElem?_eq_none (Nat.le_of_not_lt hge)] at hp
    cases hp
  have hkeep : ∀ (p0 : Nat) (sm0 : SessionManager), w.heap[p0]? = some sm0 →
      (w.heap ++ [({ region := region, profile := sm.profile, config := cfg } :
        SessionManager)])[p0]? = some sm0 := by
    intro p0 sm0 h0
    have h0lt : p0 < w.heap.length := by
      by_contra hge
      rw [List.getElem?_eq_none (Nat.le_of_not_lt hge)] at h0
      cases h0
    rw [List.getElem?_append_left h0lt]
    exact h0
  refine ⟨w.heap.length, { region := region, profile := sm.profile, config := cfg }, ?_⟩
  unfold UseRegion
  rw [NewSessionManager_ok sdk region sm.profile w cfg hload]
  refine ⟨rfl, Nat.ne_of_gt hlt, List.getElem?_eq_none (Nat.le_refl _), ?_, rfl, rfl, rfl, rfl,
    hkeep p sm hp, hkeep⟩
  simp

/-- Witness of C8: from the `us-west-2` manager at address 0 to `eu-west-1`. -/
theorem UseRegion_new_manager_same_profile_witness :
    ∃ q fresh,
      (UseRegion (sdkAnswering []) westSm "eu-west-1" { World.init with heap := [westSm] }).1 =
        .ok q ∧ q ≠ 0 ∧ ({ World.init with heap := [westSm] } : World).heap[q]? = none ∧
      (UseRegion (sdkAnswering []) westSm "eu-west-1"
        { World.init with heap := [westSm] }).2.heap[q]? = some fresh ∧
      fresh.region = "eu-west-1" ∧ GetRegion fresh = "eu-west-1" ∧
      fresh.profile = westSm.profile ∧ fresh.config = westConfig ∧
      (UseRegion (sdkAnswering []) westSm "eu-west-1"
        { World.init with heap := [westSm] }).2.heap[0]? = some westSm ∧
      (∀ (p0 : Nat) (sm0 : SessionManager),
        ({ World.init with heap := [westSm] } : World).heap[p0]? = some sm0 →
        (UseRegion (sdkAnswering []) westSm "eu-west-1"
          { World.init with heap := [westSm] }).2.heap[p0]? = some sm0) :=
  UseRegion_new_manager_same_profile (sdkAnswering []) westSm "eu-west-1"
    { World.init with heap := [westSm] } 0 westConfig rfl rfl

/-! ## The top-level flow -/

theorem loadOptions_no_profile (region : String) :
    loadOptions region "" = [LoadOption.WithRegion region] := by
  simp [loadOptions]

/-- The listing loop only writes to standard output. -/
theorem printVpcs_frame (vpcs : List VpcInfo) (w : World) :
    (printVpcs vpcs w).calls = w.calls ∧ (printVpcs vpcs w).stderr = w.stderr ∧
      (printVpcs vpcs w).heap = w.heap := by
  unfold printVpcs
  generalize vpcs.enum = l
  induction l generalizing w with
  | nil => simp
  | cons x rest ih =>
    simp only [List.foldl_cons]
    exact ⟨(ih _).1.trans rfl, (ih _).2.1.trans rfl, (ih _).2.2.trans rfl⟩

/-- C7: when the identity call made by `ValidateCredentials` is rejected with `err`,
`ValidateCredentials` returns the error wrapping `err`; in a run of `main` where this
happens the process exits with status 1 after reporting that error, and the only SDK
calls issued in the run are the configuration load and that identity call: no
describe-VPCs call is issued. -/
theorem rejected_credentials_end_the_run (sdk : Sdk) (args : List String) (w : World)
    (cfg : Config) (err : GoError)
    (hload : sdk.LoadDefaultConfig w.calls.length [LoadOption.WithRegion (regionOfArgs args)] =
      .ok cfg)
    (hreject : sdk.GetCallerIdentity (w.calls.length + 1) cfg = .error err) :
    (ValidateCredentials sdk { region := regionOfArgs args, profile := "", config := cfg }
        (NewSessionManager sdk (regionOfArgs args) "" w).2).1 =
      .error (errorfW "failed to validate AWS credentials: " err) ∧
    (errorfW "failed to validate AWS credentials: " err).Unwrap = some err ∧
    (main sdk args w).1 = 1 ∧
    (main sdk args w).2.stderr =
      w.stderr ++ ["Invalid AWS credentials: " ++
        (errorfW "failed to validate AWS credentials: " err).Error ++ "\n"] ∧
    (main sdk args w).2.stdout = w.stdout ∧
    (main sdk args w).2.calls =
      w.calls ++ [ApiCall.LoadDefaultConfig [LoadOption.WithRegion (regionOfArgs args)],
        ApiCall.GetCallerIdentity cfg] ∧
    (∀ c ∈ [ApiCall.LoadDefaultConfig [LoadOption.WithRegion (regionOfArgs args)],
        ApiCall.GetCallerIdentity cfg], c.isDescribeVpcs = false) := by
  have hload2 : sdk.LoadDefaultConfig w.calls.length (loadOptions (regionOfArgs args) "") =
      .ok cfg := by rw [loadOptions_no_profile]; exact hload
  refine ⟨?_, rfl, ?_, ?_, ?_, ?_, ?_⟩
  · rw [NewSessionManager_ok sdk _ "" w cfg hload2, ValidateCredentials_eq]
    simp [hreject]
  · unfold main
    simp only [NewSessionManager_ok sdk _ "" w cfg hload2]
    simp [ValidateCredentials_eq, hreject, Fatalf]
  · unfold main
    simp only [NewSessionManager_ok sdk _ "" w cfg hload2]
    simp [ValidateCredentials_eq, hreject, Fatalf, World.eprint, World.issue]
  · unfold main
    simp only [NewSessionManager_ok sdk _ "" w cfg hload2]
    simp [ValidateCredentials_eq, hreject, Fatalf, World.eprint, World.issue]
  · unfold main
    simp only [NewSessionManager_ok sdk _ "" w cfg hload2]
    simp [ValidateCredentials_eq, hreject, Fatalf, World.eprint, World.issue,
      loadOptions_no_profile]
  · intro c hc
    simp only [List.mem_cons, List.mem_singleton, List.not_mem_nil, or_false] at hc
    rcases hc with h | h <;> subst h <;> rfl

/-- Witness of C7: a run in region `us-west-2` whose identity call is rejected. -/
theorem rejected_credentials_end_the_run_witness :
    (main (sdkRejecting transportError) ["vpchrono", "us-west-2"] World.init).1 = 1 ∧
    (main (sdkRejecting transportError) ["vpchrono", "us-west-2"] World.init).2.calls =
      [ApiCall.LoadDefaultConfig [LoadOption.WithRegion "us-west-2"],
        ApiCall.GetCallerIdentity westConfig] :=
  have h := rejected_credentials_end_the_run (sdkRejecting transportError)
    ["vpchrono", "us-west-2"] World.init westConfig transportError rfl rfl
  ⟨h.2.2.1, h.2.2.2.2.2.1⟩

/-- C6, as stated, fails: in `main` a lookup error from `GetDefaultVpc` is not fatal.
When the filtered describe call fails with a transport error, `GetDefaultVpc` returns
the error wrapping it, and `main` prints it after `No default VPC found:`, writes
nothing to standard error and exits with status 0. -/
theorem main_survives_default_lookup_error :
    (GetDefaultVpc (sdkFilteredFailing transportError) westSm World.init).1 =
      .error (errorfW "failed to describe VPCs: " transportError) ∧
    (main (sdkFilteredFailing transportError) ["vpchrono", "us-west-2"] World.init).1 = 0 ∧
    (main (sdkFilteredFailing transportError) ["vpchrono", "us-west-2"]
      World.init).2.stderr = [] ∧
    (main (sdkFilteredFailing transportError) ["vpchrono", "us-west-2"]
      World.init).2.stdout.getLast? =
        some ("No default VPC found: failed to describe VPCs: " ++
          "RequestError: send request failed\n") := by
  refine ⟨rfl, rfl, rfl, ?_⟩
  decide

/-- C6, amended: in `main`, an error returned by `NewSessionManager`,
`ValidateCredentials`, `GetCallerIdentity` or `GetAllVpcs` is fatal: the process
reports it on standard error and exits with status 1. Every error returned by
`GetDefaultVpc`, the not-found error and the lookup error alike, is not fatal: `main`
prints it after `No default VPC found:` and exits with status 0. -/
theorem main_fatal_and_tolerated_errors (sdk : Sdk) (args : List String) (w : World) :
    let s1 := NewSessionManager sdk (regionOfArgs args) "" w
    (∀ err, s1.1 = .error err →
      main sdk args w = (1, s1.2.eprint ("Failed to create session manager: " ++ err.Error ++ "\n"))) ∧
    (∀ (p : Nat) (sm : SessionManager), s1.1 = .ok p → s1.2.heap[p]? = some sm →
      let s2 := ValidateCredentials sdk sm s1.2
      (∀ err, s2.1 = .error err →
        main sdk args w = (1, s2.2.eprint ("Invalid AWS credentials: " ++ err.Error ++ "\n"))) ∧
      (s2.1 = .ok () →
        let s3 := GetCallerIdentity sdk sm s2.2
        (∀ err, s3.1 = .error err →
          main sdk args w = (1, s3.2.eprint ("Failed to get caller identity: " ++ err.Error ++ "\n"))) ∧
        (∀ arn account, s3.1 = .ok { Arn := some arn, Account := some account } →
          let s4 := GetAllVpcs sdk sm
            ((s3.2.print ("Authenticated as: " ++ arn ++ "\n")).print
              ("Account ID: " ++ account ++ "\n"))
          (∀ err, s4.1 = .error err →
            main sdk args w = (1, s4.2.eprint ("Failed to get VPCs: " ++ err.Error ++ "\n"))) ∧
          (∀ vpcs, s4.1 = .ok vpcs →
            let s5 := GetDefaultVpc sdk sm
              (printVpcs vpcs
                (s4.2.print ("\nFound " ++ toString vpcs.length ++ " VPCs in region " ++
                  GetRegion sm ++ ":\n")))
            ∀ err, s5.1 = .error err →
              main sdk args w =
                (0, s5.2.print ("No default VPC found: " ++ err.Error ++ "\n")))))) := by
  intro s1
  refine ⟨?_, ?_⟩
  · intro err h1
    have e1 : NewSessionManager sdk (regionOfArgs args) "" w = (.error err, s1.2) :=
      Prod.ext h1 rfl
    unfold main
    simp only [e1, Fatalf]
  · intro p sm h1 hsm s2
    have e1 : NewSessionManager sdk (regionOfArgs args) "" w = (.ok p, s1.2) := Prod.ext h1 rfl
    refine ⟨?_, ?_⟩
    · intro err h2
      have e2 : ValidateCredentials sdk sm s1.2 = (.error err, s2.2) := Prod.ext h2 rfl
      unfold main
      simp only [e1, hsm, e2, Fatalf]
    · intro h2 s3
      have e2 : ValidateCredentials sdk sm s1.2 = (.ok (), s2.2) := Prod.ext h2 rfl
      refine ⟨?_, ?_⟩
      · intro err h3
        have e3 : GetCallerIdentity sdk sm s2.2 = (.error err, s3.2) := Prod.ext h3 rfl
        unfold main
        simp only [e1, hsm, e2, e3, Fatalf]
      · intro arn account h3 s4
        have e3 : GetCallerIdentity sdk sm s2.2 =
            (.ok { Arn := some arn, Account := some account }, s3.2) := Prod.ext h3 rfl
        refine ⟨?_, ?_⟩
        · intro err h4
          have e4 : GetAllVpcs sdk sm
              ((s3.2.print ("Authenticated as: " ++ arn ++ "\n")).print
                ("Account ID: " ++ account ++ "\n")) = (.error err, s4.2) := Prod.ext h4 rfl
          unfold main
          simp only [e1, hsm, e2, e3, e4, Fatalf]
        · intro vpcs h4 s5 err h5
          have e4 : GetAllVpcs sdk sm
              ((s3.2.print ("Authenticated as: " ++ arn ++ "\n")).print
                ("Account ID: " ++ account ++ "\n")) = (.ok vpcs, s4.2) := Prod.ext h4 rfl
          have e5 : GetDefaultVpc sdk sm
              (printVpcs vpcs
                (s4.2.print ("\nFound " ++ toString vpcs.length ++ " VPCs in region " ++
                  GetRegion sm ++ ":\n"))) = (.error err, s5.2) := Prod.ext h5 rfl
          unfold main
          simp only [e1, hsm, e2, e3, e4, e5]

/-- Witness of the amended C6: a run in which the filtered describe call answers no
entry, so that `GetDefaultVpc` returns its not-found error, exits with status 0. -/
theorem main_fatal_and_tolerated_errors_witness :
    (main (sdkFiltering [vpc2]) ["vpchrono"] World.init).1 = 0 :=
  congrArg Prod.fst
    (((((main_fatal_and_tolerated_errors (sdkFiltering [vpc2]) ["vpchrono"] World.init).2 0
      { region := "us-east-1", profile := "", config := westConfig } rfl rfl).2 rfl).2
      "arn:aws:iam::123456789012:user/dev" "123456789012" rfl).2 [info2] rfl
      (errorf ("no default VPC found in region " ++ "us-east-1")) rfl)

end Vpchrono
